import Mathlib

/-!
Verification of core coordinate, reference-frame, rotation-model and timeline
operations of the Celestia engine, shallowly embedded in Lean 4.

The embedding follows the C++ sources:
  src/celengine/univcoord.h      (UniversalCoord)
  src/celengine/frame.cpp        (ReferenceFrame hierarchy, FrameVector)
  src/celengine/timelinephase.cpp (TimelinePhase creation)
  src/celephem/rotation.cpp      (RotationModel hierarchy)

Doubles are idealised as exact rationals (where only ring operations and
comparisons occur) or as real numbers (where trigonometry occurs); machine
fixed-point values are idealised as exact rationals.  Classes that live in
headers outside the provided sources (R128, the astro unit conversions, the
celmath rotation helpers, Selection, Body/Universe stores) are modelled from
the specification; each such definition carries a doc comment saying so.
-/

/-! ### Rational 3-vectors (double-precision triples in the UniversalCoord API) -/

/-- A 3-vector of rationals, modelling an Eigen::Vector3d in contexts where
only exact ring operations occur. -/
structure QVec3 where
  x : ℚ
  y : ℚ
  z : ℚ
deriving DecidableEq, Repr

/-- Componentwise scaling of a rational 3-vector, modelling Eigen's
vector-times-scalar product. -/
def QVec3.smul (v : QVec3) (c : ℚ) : QVec3 :=
  ⟨v.x * c, v.y * c, v.z * c⟩

/-! ### Unit conversions

Modelled from the spec: celastro/astro.h is not among the provided sources.
The spec fixes the internal unit as micro-light-years; one light year is
9460730472580.8 km (IAU), hence one micro-light-year is 9460730.4725808 km. -/

/-- Modelled from the spec: kilometers per micro-light-year
(celastro/astro.h is not among the provided sources). -/
def microLightYearsToKilometers (x : ℚ) : ℚ :=
  x * (94607304725808 / 10 ^ 7)

/-- Modelled from the spec: micro-light-years per kilometer, the inverse of
microLightYearsToKilometers (celastro/astro.h is not among the provided
sources). -/
def kilometersToMicroLightYears (x : ℚ) : ℚ :=
  x * (10 ^ 7 / 94607304725808)

/-! ### UniversalCoord (src/celengine/univcoord.h)

The R128 components are 64.64 fixed-point values; r128.h is not among the
provided sources.  Modelled from the spec: addition and subtraction of
coordinates are exact and closed, so each component is idealised as an exact
rational (the fixed-point grid is a subset of ℚ closed under + and -, and the
claims under study are insensitive to the grid's resolution). -/

/-- High-precision universal coordinate: three fixed-point components,
idealised as rationals (see section comment). -/
structure UniversalCoord where
  x : ℚ
  y : ℚ
  z : ℚ
deriving DecidableEq, Repr

/-- Componentwise addition of universal coordinates
(operator+ in univcoord.h, lines 174-177). -/
instance : Add UniversalCoord :=
  ⟨fun a b => ⟨a.x + b.x, a.y + b.y, a.z + b.z⟩⟩

/-- Componentwise subtraction of universal coordinates
(operator- in univcoord.h, lines 179-182). -/
instance : Sub UniversalCoord :=
  ⟨fun a b => ⟨a.x - b.x, a.y - b.y, a.z - b.z⟩⟩

/-- UniversalCoord::Zero (univcoord.h): the default, all-zero coordinate. -/
def UniversalCoord.Zero : UniversalCoord := ⟨0, 0, 0⟩

/-- UniversalCoord::CreateKm (univcoord.h, lines 136-140), translated as
written: the input vector is multiplied by microLightYearsToKilometers(1.0)
and the products are stored as the components. -/
def UniversalCoord.CreateKm (v : QVec3) : UniversalCoord :=
  let vUly := v.smul (microLightYearsToKilometers 1)
  ⟨vUly.x, vUly.y, vUly.z⟩

/-- UniversalCoord::offsetFromKm (univcoord.h, lines 72-77): the
componentwise difference, reduced to double precision, times
microLightYearsToKilometers(1.0). -/
def UniversalCoord.offsetFromKm (a uc : UniversalCoord) : QVec3 :=
  (QVec3.mk (a.x - uc.x) (a.y - uc.y) (a.z - uc.z)).smul
    (microLightYearsToKilometers 1)

/-- UniversalCoord::offsetKm (univcoord.h, lines 50-54): add an offset given
in kilometers, via the kilometersToMicroLightYears conversion. -/
def UniversalCoord.offsetKm (a : UniversalCoord) (v : QVec3) : UniversalCoord :=
  let vUly := v.smul (kilometersToMicroLightYears 1)
  a + ⟨vUly.x, vUly.y, vUly.z⟩

/-! ### Claims C1 and C10 -/

/-- C1 (code bug): evaluating the code at the failing input v = (1, 0, 0) km,
the round trip CreateKm(v).offsetFromKm(Zero()) returns a vector whose x
component is (94607304725808 / 10^7)^2 — about 8.95e13 — instead of a value
within fixed-point resolution of 1.  CreateKm multiplies by
microLightYearsToKilometers(1.0) where the kilometers-to-micro-light-years
factor is required (offsetKm in the same header uses the correct factor for
the same conversion), so the kilometers round trip fails by thirteen orders
of magnitude. -/
theorem createKm_offsetFromKm_roundtrip_fails :
    (UniversalCoord.CreateKm ⟨1, 0, 0⟩).offsetFromKm UniversalCoord.Zero =
      ⟨(94607304725808 / 10 ^ 7) ^ 2, 0, 0⟩ ∧
    ((94607304725808 : ℚ) / 10 ^ 7) ^ 2 > 10 ^ 13 := by
  constructor
  · show QVec3.mk _ _ _ = _
    simp only [UniversalCoord.CreateKm, UniversalCoord.offsetFromKm,
      UniversalCoord.Zero, QVec3.smul, microLightYearsToKilometers]
    norm_num
  · norm_num

/-- C10: for all universal coordinates a and b, (a + b) - b = a and
(a - b) + b = a hold exactly, componentwise, because coordinate addition and
subtraction are exact closed operations on each component. -/
theorem universalCoord_add_sub_cancel (a b : UniversalCoord) :
    (a + b) - b = a ∧ (a - b) + b = a := by
  obtain ⟨ax, ay, az⟩ := a
  obtain ⟨bx, by', bz⟩ := b
  constructor
  · show UniversalCoord.mk (ax + bx - bx) (ay + by' - by') (az + bz - bz) = _
    simp only [UniversalCoord.mk.injEq]
    refine ⟨by ring, by ring, by ring⟩
  · show UniversalCoord.mk (ax - bx + bx) (ay - by' + by') (az - bz + bz) = _
    simp only [UniversalCoord.mk.injEq]
    refine ⟨by ring, by ring, by ring⟩

/-! ### Real 3-vectors and quaternions

Double-precision vectors and quaternions in the frame and rotation-model code
are idealised as real-valued. -/

/-- A 3-vector of reals, modelling an Eigen::Vector3d. -/
structure Vec3 where
  x : ℝ
  y : ℝ
  z : ℝ

/-- The zero vector (Eigen::Vector3d::Zero). -/
def Vec3.zero : Vec3 := ⟨0, 0, 0⟩

/-- The unit y vector (Eigen::Vector3d::UnitY). -/
def Vec3.unitY : Vec3 := ⟨0, 1, 0⟩

/-- Componentwise vector addition. -/
def Vec3.add (a b : Vec3) : Vec3 := ⟨a.x + b.x, a.y + b.y, a.z + b.z⟩

/-- Componentwise vector subtraction. -/
def Vec3.sub (a b : Vec3) : Vec3 := ⟨a.x - b.x, a.y - b.y, a.z - b.z⟩

/-- Componentwise vector negation. -/
def Vec3.neg (a : Vec3) : Vec3 := ⟨-a.x, -a.y, -a.z⟩

/-- Vector scaled by a real. -/
def Vec3.smul (a : Vec3) (c : ℝ) : Vec3 := ⟨a.x * c, a.y * c, a.z * c⟩

/-- Cross product (Eigen's .cross). -/
def Vec3.cross (a b : Vec3) : Vec3 :=
  ⟨a.y * b.z - a.z * b.y, a.z * b.x - a.x * b.z, a.x * b.y - a.y * b.x⟩

/-- Euclidean norm (Eigen's .norm). -/
noncomputable def Vec3.norm (a : Vec3) : ℝ :=
  Real.sqrt (a.x ^ 2 + a.y ^ 2 + a.z ^ 2)

/-- Normalisation (Eigen's .normalized / .normalize): the vector divided by
its norm. -/
noncomputable def Vec3.normalized (a : Vec3) : Vec3 :=
  a.smul (1 / a.norm)

/-- Real quaternion with scalar part w and vector part (x, y, z), modelling
an Eigen::Quaterniond. -/
structure Quat where
  w : ℝ
  x : ℝ
  y : ℝ
  z : ℝ

/-- The identity quaternion (Eigen's Quaterniond::Identity). -/
def Quat.one : Quat := ⟨1, 0, 0, 0⟩

/-- Hamilton product of quaternions (Eigen's quaternion operator*). -/
def Quat.mul (a b : Quat) : Quat :=
  ⟨a.w * b.w - a.x * b.x - a.y * b.y - a.z * b.z,
   a.w * b.x + a.x * b.w + a.y * b.z - a.z * b.y,
   a.w * b.y - a.x * b.z + a.y * b.w + a.z * b.x,
   a.w * b.z + a.x * b.y - a.y * b.x + a.z * b.w⟩

/-- Quaternion conjugate (Eigen's .conjugate): same scalar part, negated
vector part.  For a unit quaternion this is the inverse. -/
def Quat.conj (a : Quat) : Quat := ⟨a.w, -a.x, -a.y, -a.z⟩

/-- The vector part of a quaternion (Eigen's .vec). -/
def Quat.vec (a : Quat) : Vec3 := ⟨a.x, a.y, a.z⟩

/-- Embed a vector as a pure quaternion. -/
def Quat.ofVec (v : Vec3) : Quat := ⟨0, v.x, v.y, v.z⟩

/-- Rotation of a vector by a quaternion via the sandwich product
q (0, v) q* (Eigen's quaternion-times-vector operator for unit
quaternions). -/
def Quat.rotate (q : Quat) (v : Vec3) : Vec3 :=
  ((q.mul (Quat.ofVec v)).mul q.conj).vec

/-- Modelled from the spec: celmath/geomutil.h is not among the provided
sources.  XRotation builds the quaternion of a rotation by the given angle
about the x axis (Eigen AngleAxis convention). -/
noncomputable def XRotation (angle : ℝ) : Quat :=
  ⟨Real.cos (angle / 2), Real.sin (angle / 2), 0, 0⟩

/-- Modelled from the spec: celmath/geomutil.h is not among the provided
sources.  YRotation builds the quaternion of a rotation by the given angle
about the y axis (Eigen AngleAxis convention). -/
noncomputable def YRotation (angle : ℝ) : Quat :=
  ⟨Real.cos (angle / 2), 0, Real.sin (angle / 2), 0⟩

/-- Conjugation reverses quaternion products. -/
theorem Quat.conj_mul (a b : Quat) : (a.mul b).conj = b.conj.mul a.conj := by
  simp only [Quat.mul, Quat.conj, Quat.mk.injEq]
  refine ⟨by ring, by ring, by ring, by ring⟩

/-- Conjugation is an involution. -/
theorem Quat.conj_conj (a : Quat) : a.conj.conj = a := by
  simp only [Quat.conj, neg_neg]

/-- The norm is invariant under componentwise negation. -/
theorem Vec3.norm_neg (a : Vec3) : a.neg.norm = a.norm := by
  simp only [Vec3.neg, Vec3.norm]
  ring_nf

/-- Normalisation commutes with componentwise negation. -/
theorem Vec3.normalized_neg (a : Vec3) : a.neg.normalized = a.normalized.neg := by
  unfold Vec3.normalized
  rw [Vec3.norm_neg]
  simp only [Vec3.neg, Vec3.smul, Vec3.mk.injEq]
  refine ⟨by ring, by ring, by ring⟩

/-- The identity quaternion is a left unit for the Hamilton product. -/
theorem Quat.one_mul (a : Quat) : Quat.one.mul a = a := by
  obtain ⟨w, x, y, z⟩ := a
  simp only [Quat.one, Quat.mul, Quat.mk.injEq]
  refine ⟨by ring, by ring, by ring, by ring⟩

/-- The identity quaternion is a right unit for the Hamilton product. -/
theorem Quat.mul_one (a : Quat) : a.mul Quat.one = a := by
  obtain ⟨w, x, y, z⟩ := a
  simp only [Quat.one, Quat.mul, Quat.mk.injEq]
  refine ⟨by ring, by ring, by ring, by ring⟩

/-- The conjugate of the identity quaternion is itself. -/
theorem Quat.conj_one : Quat.one.conj = Quat.one := by
  simp only [Quat.one, Quat.conj, Quat.mk.injEq]
  norm_num

/-- Rotating by the identity quaternion leaves a vector unchanged. -/
theorem Quat.rotate_one (v : Vec3) : Quat.one.rotate v = v := by
  simp only [Quat.rotate, Quat.conj_one, Quat.one_mul, Quat.mul_one,
    Quat.ofVec, Quat.vec]

/-- Conjugation keeps the scalar part. -/
theorem Quat.w_conj (a : Quat) : a.conj.w = a.w := rfl

/-- Conjugation negates the vector part. -/
theorem Quat.vec_conj (a : Quat) : a.conj.vec = a.vec.neg := rfl

/-- Scaling commutes with componentwise negation. -/
theorem Vec3.neg_smul_left (a : Vec3) (c : ℝ) :
    (a.neg).smul c = (a.smul c).neg := by
  simp only [Vec3.neg, Vec3.smul, Vec3.mk.injEq]
  refine ⟨by ring, by ring, by ring⟩

/-- The zero vector is fixed by componentwise negation. -/
theorem Vec3.neg_zero : Vec3.zero.neg = Vec3.zero := by
  simp only [Vec3.zero, Vec3.neg, Vec3.mk.injEq]
  norm_num

/-! ### RotationModel (src/celephem/rotation.cpp)

A rotation model is a spin function, an equator-orientation function, a
periodicity flag and a period; these are the virtual members used by the
default angular-velocity computation. -/

/-- A rotation model: the virtual interface consumed by
RotationModel::angularVelocityAtTime. -/
structure RotationModel where
  spin : ℝ → Quat
  equatorOrientation : ℝ → Quat
  isPeriodic : Bool
  period : ℝ

/-- Modelled from the spec: rotation.h is not among the provided sources;
the spec fixes orientation(t) = spin(t) * equatorOrientation(t) (quaternion
composition, §4.2), and CachingRotationModel::computeAngularVelocity in
rotation.cpp reconstructs the orientation as spin * equator in the same
order. -/
def RotationModel.orientationAtTime (rm : RotationModel) (tjd : ℝ) : Quat :=
  (rm.spin tjd).mul (rm.equatorOrientation tjd)

/-- ANGULAR_VELOCITY_DIFF_DELTA in rotation.cpp (line 27): the fixed
differentiation step of 1/1440 day for non-periodic models. -/
noncomputable def ANGULAR_VELOCITY_DIFF_DELTA : ℝ := 1 / 1440

/-- chooseDiffTimeDelta (rotation.cpp, lines 31-37): 1/10000 of the period
for periodic models, else the fixed constant. -/
noncomputable def chooseDiffTimeDelta (rm : RotationModel) : ℝ :=
  if rm.isPeriodic then rm.period / 10000 else ANGULAR_VELOCITY_DIFF_DELTA

/-- RotationModel::angularVelocityAtTime (rotation.cpp, lines 46-58):
differentiate the orientation over the step dt; dq is
q1.conjugate() * q0 with q0 = orientation(t) and q1 = orientation(t + dt);
return zero when |dq.w| exceeds the tolerance, else the normalised vector
part scaled by 2 * acos(dq.w) / dt. -/
noncomputable def RotationModel.angularVelocityAtTime
    (rm : RotationModel) (tdb : ℝ) : Vec3 :=
  let dt := chooseDiffTimeDelta rm
  let q0 := rm.orientationAtTime tdb
  let q1 := rm.orientationAtTime (tdb + dt)
  let dq := (q1.conj).mul q0
  if |dq.w| > 0.99999999 then Vec3.zero
  else (dq.vec.normalized).smul (2 * Real.arccos dq.w / dt)

/-- The formula asserted by claim C2, written from the spec's words: the
angular velocity is axis * angle / delta recovered from the relative
quaternion q(t)⁻¹ · q(t+δ) (in that order; the inverse of a unit quaternion
is its conjugate), zero when the scalar part magnitude exceeds the
tolerance. -/
noncomputable def angularVelocityClaimFormula
    (rm : RotationModel) (tdb : ℝ) : Vec3 :=
  let dt := chooseDiffTimeDelta rm
  let q0 := rm.orientationAtTime tdb
  let q1 := rm.orientationAtTime (tdb + dt)
  let dq := (q0.conj).mul q1
  if |dq.w| > 0.99999999 then Vec3.zero
  else (dq.vec.normalized).smul (2 * Real.arccos dq.w / dt)

/-! ### Claim C2 -/

/-- C2 (amended): for every rotation model and time, the default
angularVelocityAtTime is the axis * angle / delta value recovered from the
relative quaternion q(t+δ)⁻¹ · q(t) — which is the componentwise negation of
the value the claim's formula recovers from q(t)⁻¹ · q(t+δ); the delta
selection (period / 10000 for periodic models, the fixed constant otherwise)
and the zero fallback for |scalar part| above the tolerance are as the claim
states. -/
theorem angularVelocity_is_neg_claimFormula (rm : RotationModel) (t : ℝ) :
    rm.angularVelocityAtTime t = (angularVelocityClaimFormula rm t).neg := by
  unfold RotationModel.angularVelocityAtTime angularVelocityClaimFormula
  simp only []
  set dt := chooseDiffTimeDelta rm with hdt
  set q0 := rm.orientationAtTime t with hq0
  set q1 := rm.orientationAtTime (t + dt) with hq1
  have hdq : (q1.conj).mul q0 = ((q0.conj).mul q1).conj := by
    rw [Quat.conj_mul, Quat.conj_conj]
  rw [hdq]
  set dq := (q0.conj).mul q1 with hdqd
  rw [Quat.w_conj, Quat.vec_conj]
  by_cases h : |dq.w| > 0.99999999
  · rw [if_pos h, if_pos h, Vec3.neg_zero]
  · rw [if_neg h, if_neg h, Vec3.normalized_neg, Vec3.neg_smul_left]

/-- A concrete rotation model refuting claim C2 as stated: the orientation
is the identity at time 0 and a half-turn about x elsewhere. -/
noncomputable def c2RotationModel : RotationModel where
  spin := fun t => if t = 0 then Quat.one else ⟨0, 1, 0, 0⟩
  equatorOrientation := fun _ => Quat.one
  isPeriodic := false
  period := 1

/-- C2 (counterexample): at the concrete rotation model above and t = 0, the
code's angular velocity is (-1440π, 0, 0) while the claim's
q(t)⁻¹ · q(t+δ) formula yields (1440π, 0, 0); the two differ, so the claim
as stated is false. -/
theorem angularVelocity_claimFormula_counterexample :
    RotationModel.angularVelocityAtTime c2RotationModel 0 ≠
      angularVelocityClaimFormula c2RotationModel 0 := by
  have hdt : chooseDiffTimeDelta c2RotationModel = 1 / 1440 := by
    simp [chooseDiffTimeDelta, c2RotationModel, ANGULAR_VELOCITY_DIFF_DELTA]
  have hq0 : c2RotationModel.orientationAtTime 0 = Quat.one := by
    simp only [RotationModel.orientationAtTime, c2RotationModel, if_pos rfl]
    exact Quat.mul_one _
  have hq1 : c2RotationModel.orientationAtTime (0 + 1 / 1440) = ⟨0, 1, 0, 0⟩ := by
    simp only [RotationModel.orientationAtTime, c2RotationModel]
    rw [if_neg (by norm_num)]
    exact Quat.mul_one _
  have hL : RotationModel.angularVelocityAtTime c2RotationModel 0 =
      ⟨-(1440 * Real.pi), 0, 0⟩ := by
    unfold RotationModel.angularVelocityAtTime
    simp only []
    rw [hdt, hq0]
    rw [show (0 : ℝ) + 1 / 1440 = 0 + 1 / 1440 from rfl, hq1]
    have hdq : (Quat.mk 0 1 0 0).conj.mul Quat.one = ⟨0, -1, 0, 0⟩ := by
      rw [Quat.mul_one]; simp only [Quat.conj, Quat.mk.injEq]; norm_num
    rw [hdq]
    rw [if_neg (by norm_num)]
    simp only [Quat.vec, Vec3.normalized, Vec3.norm, Vec3.smul,
      Real.arccos_zero, Vec3.mk.injEq]
    norm_num [Real.sqrt_one]
    ring
  have hR : angularVelocityClaimFormula c2RotationModel 0 =
      ⟨1440 * Real.pi, 0, 0⟩ := by
    unfold angularVelocityClaimFormula
    simp only []
    rw [hdt, hq0, hq1]
    have hdq : Quat.one.conj.mul ⟨0, 1, 0, 0⟩ = ⟨0, 1, 0, 0⟩ := by
      rw [Quat.conj_one]; exact Quat.one_mul _
    rw [hdq]
    rw [if_neg (by norm_num)]
    simp only [Quat.vec, Vec3.normalized, Vec3.norm, Vec3.smul,
      Real.arccos_zero, Vec3.mk.injEq]
    norm_num [Real.sqrt_one]
    ring
  rw [hL, hR]
  intro h
  have hx := congrArg Vec3.x h
  simp only at hx
  nlinarith [Real.pi_pos]

/-! ### UniformRotationModel (rotation.cpp, lines 183-241) and claim C6 -/

/-- A uniform rotation model: period, offset, epoch, inclination and
ascending node (rotation.cpp, lines 183-194). -/
structure UniformRotationModel where
  period : ℝ
  offset : ℝ
  epoch : ℝ
  inclination : ℝ
  ascendingNode : ℝ

/-- UniformRotationModel::spin (rotation.cpp, lines 211-225): the fractional
part of (t - epoch) / period, plus the half-rotation texture offset, drives a
rotation about the y axis. -/
noncomputable def UniformRotationModel.spin
    (m : UniformRotationModel) (tjd : ℝ) : Quat :=
  let rotations := (tjd - m.epoch) / m.period
  let wholeRotations := (⌊rotations⌋ : ℝ)
  let remainder := rotations - wholeRotations + 0.5
  YRotation (-remainder * 2 * Real.pi - m.offset)

/-- UniformRotationModel::equatorOrientationAtTime (rotation.cpp,
lines 228-233): a fixed tilt given by inclination and ascending node. -/
noncomputable def UniformRotationModel.equatorOrientationAtTime
    (m : UniformRotationModel) (_tjd : ℝ) : Quat :=
  (XRotation (-m.inclination)).mul (YRotation (-m.ascendingNode))

/-- UniformRotationModel::angularVelocityAtTime (rotation.cpp,
lines 236-241): the unit y axis rotated by the conjugate equator
orientation, scaled by 2π / period. -/
noncomputable def UniformRotationModel.angularVelocityAtTime
    (m : UniformRotationModel) (tdb : ℝ) : Vec3 :=
  let v := ((m.equatorOrientationAtTime tdb).conj).rotate Vec3.unitY
  v.smul (2 * Real.pi / m.period)

/-- C6: for a UniformRotationModel with period P > 0, offset 0, epoch E,
inclination 0 and ascending node 0, spin(E) = spin(E + P) (periodicity), and
the magnitude of angularVelocityAtTime(t) is 2π / P at every time t. -/
theorem uniformRotation_periodic_and_angularVelocity_norm
    (P E t : ℝ) (h : 0 < P) :
    (UniformRotationModel.mk P 0 E 0 0).spin E =
      (UniformRotationModel.mk P 0 E 0 0).spin (E + P) ∧
    ((UniformRotationModel.mk P 0 E 0 0).angularVelocityAtTime t).norm =
      2 * Real.pi / P := by
  constructor
  · unfold UniformRotationModel.spin
    simp only []
    have h1 : (E - E) / P = 0 := by rw [sub_self, zero_div]
    have h2 : (E + P - E) / P = 1 := by
      rw [add_sub_cancel_left]
      exact div_self h.ne'
    rw [h1, h2, Int.floor_zero, Int.floor_one]
    norm_num
  · unfold UniformRotationModel.angularVelocityAtTime
    simp only []
    have heq : (UniformRotationModel.mk P 0 E 0 0).equatorOrientationAtTime t =
        Quat.one := by
      unfold UniformRotationModel.equatorOrientationAtTime XRotation YRotation
      simp only [neg_zero, zero_div, Real.cos_zero, Real.sin_zero]
      show Quat.one.mul Quat.one = Quat.one
      rw [Quat.mul_one]
    rw [heq, Quat.conj_one, Quat.rotate_one]
    simp only [Vec3.unitY, Vec3.smul, Vec3.norm]
    rw [show (0 : ℝ) * (2 * Real.pi / P) = 0 from by ring]
    rw [show (0 : ℝ) ^ 2 + (1 * (2 * Real.pi / P)) ^ 2 + 0 ^ 2 =
      (2 * Real.pi / P) ^ 2 from by ring]
    exact Real.sqrt_sq (by positivity)

/-- Witness for C6 at P = 1, E = 0, t = 0. -/
theorem uniformRotation_periodic_and_angularVelocity_norm_witness :
    (0 : ℝ) < 1 ∧
    ((UniformRotationModel.mk 1 0 0 0 0).spin 0 =
      (UniformRotationModel.mk 1 0 0 0 0).spin (0 + 1) ∧
    ((UniformRotationModel.mk 1 0 0 0 0).angularVelocityAtTime 0).norm =
      2 * Real.pi / 1) :=
  ⟨by norm_num,
   uniformRotation_periodic_and_angularVelocity_norm 1 0 0 (by norm_num)⟩

/-! ### Selection

Modelled from the spec: selection.h is not among the provided sources.  A
Selection is a discriminated reference to None, a Star, a Body, a Location
or a DeepSkyObject (§3); stars and bodies are named by catalog indices, and
a location optionally refers to a parent body.  The body(), star() and
location() accessors return a non-null pointer only for the matching
discriminant, as used throughout frame.cpp and timelinephase.cpp. -/

/-- Modelled from the spec: a Selection, the discriminated reference into
the external catalogs (selection.h is not among the provided sources). -/
inductive Selection where
  | none : Selection
  | star (s : ℕ) : Selection
  | body (b : ℕ) : Selection
  | location (parentBody : Option ℕ) : Selection
  | dso (d : ℕ) : Selection
deriving DecidableEq, Repr

/-- Selection::body(): the body index when the selection is a body. -/
def Selection.bodyIdx : Selection → Option ℕ
  | .body b => some b
  | _ => Option.none

/-- Selection::star(): the star index when the selection is a star. -/
def Selection.starIdx : Selection → Option ℕ
  | .star s => some s
  | _ => Option.none

/-- getType() == SelectionType::Body. -/
def Selection.isBody : Selection → Bool
  | .body _ => true
  | _ => false

/-- getType() == SelectionType::Star. -/
def Selection.isStar : Selection → Bool
  | .star _ => true
  | _ => false

/-! ### CachingFrame (frame.cpp, lines 449-525) and claim C5

The mutable cache of a CachingFrame is modelled by explicit state passing;
getOrientation also reports how many times it invoked the virtual
computeOrientation hook. -/

/-- The mutable fields of a CachingFrame (frame.cpp, lines 451-459). -/
structure CachingFrameState where
  lastTime : ℝ
  lastOrientation : Quat
  lastAngularVelocity : Vec3
  orientationCacheValid : Bool
  angularVelocityCacheValid : Bool

/-- The CachingFrame constructor state (frame.cpp, lines 451-459): lastTime
is -1.0e50, the caches are invalid. -/
noncomputable def CachingFrameState.init : CachingFrameState where
  lastTime := -1.0e50
  lastOrientation := Quat.one
  lastAngularVelocity := Vec3.zero
  orientationCacheValid := false
  angularVelocityCacheValid := false

/-- CachingFrame::getOrientation (frame.cpp, lines 462-479), with the
virtual computeOrientation hook passed as a function: returns the
orientation, the updated cache state, and the number of computeOrientation
invocations this call performed. -/
noncomputable def CachingFrameState.getOrientation
    (computeOrientation : ℝ → Quat) (s : CachingFrameState) (tjd : ℝ) :
    Quat × CachingFrameState × ℕ :=
  if tjd ≠ s.lastTime then
    let q := computeOrientation tjd
    (q, { s with lastTime := tjd, lastOrientation := q,
                 orientationCacheValid := true,
                 angularVelocityCacheValid := false }, 1)
  else if s.orientationCacheValid = false then
    let q := computeOrientation tjd
    (q, { s with lastOrientation := q, orientationCacheValid := true }, 1)
  else
    (s.lastOrientation, s, 0)

/-- C5: starting from the constructor state, the first getOrientation(t)
invokes computeOrientation exactly once, a second call at the same t invokes
it zero further times, a following call at any different t invokes it once
again (recomputation), and every returned orientation equals what
computeOrientation returns at the requested time. -/
theorem cachingFrame_getOrientation_caches
    (computeOrientation : ℝ → Quat) (t t' : ℝ) (hne : t' ≠ t) :
    (CachingFrameState.getOrientation computeOrientation
        CachingFrameState.init t).2.2 = 1 ∧
    (CachingFrameState.getOrientation computeOrientation
        CachingFrameState.init t).1 = computeOrientation t ∧
    (CachingFrameState.getOrientation computeOrientation
      (CachingFrameState.getOrientation computeOrientation
        CachingFrameState.init t).2.1 t).2.2 = 0 ∧
    (CachingFrameState.getOrientation computeOrientation
      (CachingFrameState.getOrientation computeOrientation
        CachingFrameState.init t).2.1 t).1 = computeOrientation t ∧
    (CachingFrameState.getOrientation computeOrientation
      (CachingFrameState.getOrientation computeOrientation
        (CachingFrameState.getOrientation computeOrientation
          CachingFrameState.init t).2.1 t).2.1 t').2.2 = 1 ∧
    (CachingFrameState.getOrientation computeOrientation
      (CachingFrameState.getOrientation computeOrientation
        (CachingFrameState.getOrientation computeOrientation
          CachingFrameState.init t).2.1 t).2.1 t').1 = computeOrientation t' := by
  by_cases h0 : t = -1.0e50
  · subst h0
    simp [CachingFrameState.getOrientation, CachingFrameState.init, hne]
  · simp [CachingFrameState.getOrientation, CachingFrameState.init, h0, hne]

/-- Witness for C5 with the constant computeOrientation hook, t = 0 and
t' = 1. -/
theorem cachingFrame_getOrientation_caches_witness :
    (1 : ℝ) ≠ 0 ∧
    ((CachingFrameState.getOrientation (fun _ => Quat.one)
        CachingFrameState.init 0).2.2 = 1 ∧
    (CachingFrameState.getOrientation (fun _ => Quat.one)
        CachingFrameState.init 0).1 = (fun _ : ℝ => Quat.one) 0 ∧
    (CachingFrameState.getOrientation (fun _ => Quat.one)
      (CachingFrameState.getOrientation (fun _ => Quat.one)
        CachingFrameState.init 0).2.1 0).2.2 = 0 ∧
    (CachingFrameState.getOrientation (fun _ => Quat.one)
      (CachingFrameState.getOrientation (fun _ => Quat.one)
        CachingFrameState.init 0).2.1 0).1 = (fun _ : ℝ => Quat.one) 0 ∧
    (CachingFrameState.getOrientation (fun _ => Quat.one)
      (CachingFrameState.getOrientation (fun _ => Quat.one)
        (CachingFrameState.getOrientation (fun _ => Quat.one)
          CachingFrameState.init 0).2.1 0).2.1 1).2.2 = 1 ∧
    (CachingFrameState.getOrientation (fun _ => Quat.one)
      (CachingFrameState.getOrientation (fun _ => Quat.one)
        (CachingFrameState.getOrientation (fun _ => Quat.one)
          CachingFrameState.init 0).2.1 0).2.1 1).1 = (fun _ : ℝ => Quat.one) 1) :=
  ⟨by norm_num,
   cachingFrame_getOrientation_caches (fun _ => Quat.one) 0 1 (by norm_num)⟩

/-! ### Reference frames (src/celengine/frame.cpp)

The closed set of frame variants implemented in frame.cpp, together with the
FrameVector type used by two-vector frames.  A frame holds its center
Selection; two-vector frames hold their primary/secondary FrameVectors and
signed axis indices; body-mean-equator frames hold their freeze state. -/

mutual

/-- The ReferenceFrame variants of frame.cpp. -/
inductive Frame where
  | j2000Ecliptic (center : Selection) : Frame
  | j2000Equator (center : Selection) : Frame
  | bodyFixed (center fixObject : Selection) : Frame
  | bodyMeanEquator (center equatorObject : Selection)
      (isFrozen : Bool) (freezeEpoch : ℝ) : Frame
  | twoVector (center : Selection) (primaryVector : FrameVec)
      (primaryAxis : ℤ) (secondaryVector : FrameVec)
      (secondaryAxis : ℤ) : Frame

/-- The FrameVector variants of frame.cpp (lines 668-710). -/
inductive FrameVec where
  | relativePosition (observer target : Selection) : FrameVec
  | relativeVelocity (observer target : Selection) : FrameVec
  | constantVector (vec : Vec3) (frame : Option Frame) : FrameVec

end

/-- ReferenceFrame::getCenter (frame.cpp, lines 146-150). -/
def Frame.center : Frame → Selection
  | .j2000Ecliptic c => c
  | .j2000Equator c => c
  | .bodyFixed c _ => c
  | .bodyMeanEquator c _ _ _ => c
  | .twoVector c _ _ _ _ => c

/-- The isInertial virtual of frame.cpp, dispatched over the frame variants
(lines 219-223, 250-254, 319-323, 405-427, 637-644).  For
BodyMeanEquatorFrame the call into the equator object's body frame
(body.h is not among the provided sources) is supplied by the
bodyFrameInertial oracle. -/
def Frame.isInertial (bodyFrameInertial : ℕ → Bool) : Frame → Bool
  | .j2000Ecliptic _ => true
  | .j2000Equator _ => true
  | .bodyFixed _ _ => false
  | .bodyMeanEquator _ equatorObject isFrozen _ =>
      if isFrozen then true
      else
        match equatorObject.bodyIdx with
        | some b => bodyFrameInertial b
        | Option.none => true
  | .twoVector _ _ _ _ _ => true

/-! ### Claim C3 -/

/-- C3 (code bug): evaluating the code on any two-vector frame,
TwoVectorFrame::isInertial returns true.  The claim (and the comment inside
the function itself, frame.cpp lines 640-642: all two-vector frames will be
treated as non-inertial) requires false. -/
theorem twoVectorFrame_isInertial_returns_true
    (bodyFrameInertial : ℕ → Bool) (center : Selection) (prim : FrameVec)
    (primaryAxis : ℤ) (sec : FrameVec) (secondaryAxis : ℤ) :
    Frame.isInertial bodyFrameInertial
      (.twoVector center prim primaryAxis sec secondaryAxis) = true := rfl

/-! ### Astrocentric conversions (frame.cpp, lines 100-141) and claim C8 -/

/-- ReferenceFrame::convertFromAstrocentric (frame.cpp, lines 100-119), with
the virtual getOrientation and the external Body::getAstrocentricPosition
supplied as functions: rotate (p - center position) for a body center,
rotate p for a star center, and the zero vector otherwise. -/
def convertFromAstrocentric (getOrientation : ℝ → Quat)
    (getAstrocentricPosition : ℕ → ℝ → Vec3)
    (centerObject : Selection) (p : Vec3) (tjd : ℝ) : Vec3 :=
  match centerObject with
  | .body b =>
      (getOrientation tjd).rotate (p.sub (getAstrocentricPosition b tjd))
  | .star _ => (getOrientation tjd).rotate p
  | _ => Vec3.zero

/-- ReferenceFrame::convertToAstrocentric (frame.cpp, lines 122-141):
center position plus p rotated by the conjugate orientation for a body
center, the conjugate rotation alone for a star center, and the zero vector
otherwise. -/
def convertToAstrocentric (getOrientation : ℝ → Quat)
    (getAstrocentricPosition : ℕ → ℝ → Vec3)
    (centerObject : Selection) (p : Vec3) (tjd : ℝ) : Vec3 :=
  match centerObject with
  | .body b =>
      (getAstrocentricPosition b tjd).add
        (((getOrientation tjd).conj).rotate p)
  | .star _ => ((getOrientation tjd).conj).rotate p
  | _ => Vec3.zero

/-- C8: for every frame whose center object is neither a Body nor a Star,
convertFromAstrocentric and convertToAstrocentric both return the zero
vector, for every input vector and time. -/
theorem astrocentric_conversions_zero_for_unsupported_center
    (getOrientation : ℝ → Quat) (getAstrocentricPosition : ℕ → ℝ → Vec3)
    (center : Selection) (p : Vec3) (t : ℝ)
    (hb : center.isBody = false) (hs : center.isStar = false) :
    convertFromAstrocentric getOrientation getAstrocentricPosition
      center p t = Vec3.zero ∧
    convertToAstrocentric getOrientation getAstrocentricPosition
      center p t = Vec3.zero := by
  cases center <;>
    simp_all [convertFromAstrocentric, convertToAstrocentric,
      Selection.isBody, Selection.isStar]

/-- Witness for C8 at a location center (a location with no parent body),
with the identity orientation and a zero position oracle. -/
theorem astrocentric_conversions_zero_witness :
    (Selection.location Option.none).isBody = false ∧
    (Selection.location Option.none).isStar = false ∧
    (convertFromAstrocentric (fun _ => Quat.one) (fun _ _ => Vec3.zero)
      (Selection.location Option.none) Vec3.unitY 0 = Vec3.zero ∧
    convertToAstrocentric (fun _ => Quat.one) (fun _ _ => Vec3.zero)
      (Selection.location Option.none) Vec3.unitY 0 = Vec3.zero) :=
  ⟨rfl, rfl,
   astrocentric_conversions_zero_for_unsupported_center
     (fun _ => Quat.one) (fun _ _ => Vec3.zero)
     (Selection.location Option.none) Vec3.unitY 0 rfl rfl⟩

/-! ### FrameVector directions and TwoVectorFrame orientation
(frame.cpp, lines 529-634 and 713-746) -/

/-- Cast a rational 3-vector to a real 3-vector (double extraction). -/
noncomputable def QVec3.toVec3 (v : QVec3) : Vec3 :=
  ⟨(v.x : ℝ), (v.y : ℝ), (v.z : ℝ)⟩

/-- The external inputs of FrameVector::direction: Selection::getPosition
and Selection::getVelocity resolve in the star/body catalogs (not among the
provided sources), and the getOrientation virtual of a referenced frame is
supplied as an oracle (it may be any frame variant, including a stateful
caching frame). -/
structure FrameEnv where
  getPosition : Selection → ℝ → UniversalCoord
  getVelocity : Selection → ℝ → Vec3
  frameOrientation : Frame → ℝ → Quat

/-- FrameVector::direction (frame.cpp, lines 713-746): relative position as
the kilometers offset between the endpoint positions, relative velocity as
the difference of velocities, and a constant vector rotated by the conjugate
orientation of its attached frame when one is present. -/
noncomputable def FrameVec.direction (env : FrameEnv) (fv : FrameVec)
    (tjd : ℝ) : Vec3 :=
  match fv with
  | .relativePosition observer target =>
      ((env.getPosition target tjd).offsetFromKm
        (env.getPosition observer tjd)).toVec3
  | .relativeVelocity observer target =>
      (env.getVelocity target tjd).sub (env.getVelocity observer tjd)
  | .constantVector vec frame =>
      match frame with
      | some f => ((env.frameOrientation f tjd).conj).rotate vec
      | Option.none => vec

/-- TwoVectorFrame::Tolerance (frame.cpp, line 533): minimum cross-product
length between the primary and secondary axes. -/
noncomputable def TwoVectorFrame.Tolerance : ℝ := 1.0e-6

/-- A 3x3 matrix as three row vectors (Eigen::Matrix3d under row
assignment). -/
structure Mat3 where
  row0 : Vec3
  row1 : Vec3
  row2 : Vec3

/-- Assignment m.row(i) = v. -/
def Mat3.setRow (m : Mat3) (i : ℤ) (v : Vec3) : Mat3 :=
  if i = 0 then { m with row0 := v }
  else if i = 1 then { m with row1 := v }
  else if i = 2 then { m with row2 := v }
  else m

/-- The tertiary axis computed by the TwoVectorFrame constructor
(frame.cpp, lines 552-563): the axis index in {1, 2, 3} used by neither the
primary nor the secondary axis. -/
def tertiaryAxisOf (primaryAxis secondaryAxis : ℤ) : ℤ :=
  if |primaryAxis| ≠ 1 ∧ |secondaryAxis| ≠ 1 then 1
  else if |primaryAxis| ≠ 2 ∧ |secondaryAxis| ≠ 2 then 2
  else 3

/-- TwoVectorFrame::computeOrientation (frame.cpp, lines 567-634):
normalise both direction vectors, apply the sign of each axis index, take
the cross product; if its length is below Tolerance return the identity
quaternion, else assemble the rotation matrix rows (reversing cross products
when the axes are not in right-hand order) and convert it to a quaternion.
Eigen's matrix-to-quaternion conversion is supplied as the
quatFromRotationMatrix argument. -/
noncomputable def TwoVectorFrame.computeOrientation (env : FrameEnv)
    (quatFromRotationMatrix : Mat3 → Quat)
    (primaryVector : FrameVec) (primaryAxis : ℤ)
    (secondaryVector : FrameVec) (secondaryAxis : ℤ) (tjd : ℝ) : Quat :=
  let v0 := (primaryVector.direction env tjd).normalized
  let v1 := (secondaryVector.direction env tjd).normalized
  let v0 := if primaryAxis < 0 then v0.neg else v0
  let v1 := if secondaryAxis < 0 then v1.neg else v1
  let v2 := v0.cross v1
  let length := v2.norm
  if length < TwoVectorFrame.Tolerance then Quat.one
  else
    let v2 := v2.smul (1 / length)
    let rhAxis0 := |primaryAxis| + 1
    let rhAxis := if rhAxis0 > 3 then 1 else rhAxis0
    let rhOrder := rhAxis = |secondaryAxis|
    let m := Mat3.mk Vec3.zero Vec3.zero Vec3.zero
    let m := m.setRow (|primaryAxis| - 1) v0
    let m :=
      if rhOrder then
        (m.setRow (|secondaryAxis| - 1) (v2.cross v0)).setRow
          (|tertiaryAxisOf primaryAxis secondaryAxis| - 1) v2
      else
        (m.setRow (|secondaryAxis| - 1) (v0.cross v2.neg)).setRow
          (|tertiaryAxisOf primaryAxis secondaryAxis| - 1) v2.neg
    quatFromRotationMatrix m

/-- Negating the left factor negates a cross product. -/
theorem Vec3.cross_neg_left (a b : Vec3) :
    (a.neg).cross b = (a.cross b).neg := by
  simp only [Vec3.neg, Vec3.cross, Vec3.mk.injEq]
  refine ⟨by ring, by ring, by ring⟩

/-- Negating the right factor negates a cross product. -/
theorem Vec3.cross_neg_right (a b : Vec3) :
    a.cross (b.neg) = (a.cross b).neg := by
  simp only [Vec3.neg, Vec3.cross, Vec3.mk.injEq]
  refine ⟨by ring, by ring, by ring⟩

/-! ### Claim C7 -/

/-- C7: whenever the normalised primary and secondary direction vectors are
nearly collinear — their cross product has length below 1e-6 — a two-vector
frame's computeOrientation returns the identity quaternion, for any axis
signs, any matrix-to-quaternion conversion and any time. -/
theorem twoVectorFrame_computeOrientation_degenerate_identity
    (env : FrameEnv) (quatFromRotationMatrix : Mat3 → Quat)
    (prim : FrameVec) (primaryAxis : ℤ) (sec : FrameVec)
    (secondaryAxis : ℤ) (t : ℝ)
    (hdeg : (((prim.direction env t).normalized).cross
      ((sec.direction env t).normalized)).norm < 1.0e-6) :
    TwoVectorFrame.computeOrientation env quatFromRotationMatrix
      prim primaryAxis sec secondaryAxis t = Quat.one := by
  unfold TwoVectorFrame.computeOrientation
  simp only []
  set a := (prim.direction env t).normalized with ha
  set b := (sec.direction env t).normalized with hb
  have h4 : ((if primaryAxis < 0 then a.neg else a).cross
      (if secondaryAxis < 0 then b.neg else b)).norm = (a.cross b).norm := by
    by_cases h1 : primaryAxis < 0 <;> by_cases h2 : secondaryAxis < 0 <;>
      simp [h1, h2, Vec3.cross_neg_left, Vec3.cross_neg_right, Vec3.norm_neg]
  rw [h4]
  rw [if_pos (show (a.cross b).norm < TwoVectorFrame.Tolerance from hdeg)]

/-- A trivial environment for concrete two-vector frame evaluations. -/
noncomputable def trivialFrameEnv : FrameEnv where
  getPosition := fun _ _ => UniversalCoord.Zero
  getVelocity := fun _ _ => Vec3.zero
  frameOrientation := fun _ _ => Quat.one

/-- Witness for C7: two identical constant direction vectors (1, 0, 0) are
perfectly collinear, and the computed orientation is the identity. -/
theorem twoVectorFrame_computeOrientation_degenerate_identity_witness :
    ((((FrameVec.constantVector ⟨1, 0, 0⟩ Option.none).direction
        trivialFrameEnv 0).normalized).cross
      (((FrameVec.constantVector ⟨1, 0, 0⟩ Option.none).direction
        trivialFrameEnv 0).normalized)).norm < 1.0e-6 ∧
    TwoVectorFrame.computeOrientation trivialFrameEnv (fun _ => Quat.one)
      (FrameVec.constantVector ⟨1, 0, 0⟩ Option.none) 1
      (FrameVec.constantVector ⟨1, 0, 0⟩ Option.none) 2 0 = Quat.one := by
  have hdir : (FrameVec.constantVector ⟨1, 0, 0⟩ Option.none).direction
      trivialFrameEnv 0 = ⟨1, 0, 0⟩ := rfl
  have hdeg : ((((FrameVec.constantVector ⟨1, 0, 0⟩ Option.none).direction
      trivialFrameEnv 0).normalized).cross
      (((FrameVec.constantVector ⟨1, 0, 0⟩ Option.none).direction
        trivialFrameEnv 0).normalized)).norm < 1.0e-6 := by
    rw [hdir]
    simp only [Vec3.normalized, Vec3.norm, Vec3.smul, Vec3.cross]
    norm_num [Real.sqrt_one, Real.sqrt_zero]
  exact ⟨hdeg,
    twoVectorFrame_computeOrientation_degenerate_identity trivialFrameEnv
      (fun _ => Quat.one) (FrameVec.constantVector ⟨1, 0, 0⟩ Option.none) 1
      (FrameVec.constantVector ⟨1, 0, 0⟩ Option.none) 2 0 hdeg⟩

/-! ### Frame nesting depth (frame.cpp, lines 166-207 and the per-variant
nestingDepth overloads)

The Body accessors getOrbitFrame(0.0) and getBodyFrame(0.0) resolve in the
external body catalog (body.h is not among the provided sources) and are
supplied by a BodyEnv; a cyclic frame graph is expressed by an environment
whose frames refer back to the same bodies.  The recursion is total: every
recursive call either strictly increases depth below the maxDepth bound or
steps to a syntactically prior function at the same depth. -/

/-- The frame type tag of ReferenceFrame::FrameType. -/
inductive FrameType where
  | positionFrame : FrameType
  | orientationFrame : FrameType
deriving DecidableEq, Repr

/-- The external body catalog consulted by getFrameDepth: each body's orbit
frame and body frame (Body::getOrbitFrame(0.0) / Body::getBodyFrame(0.0)). -/
structure BodyEnv where
  orbitFrame : ℕ → Option Frame
  bodyFrame : ℕ → Option Frame

/-- The body resolved at the start of getFrameDepth (frame.cpp, lines
180-186): the selection's body, or the parent body of a location. -/
def Selection.depthBody : Selection → Option ℕ
  | .body b => some b
  | .location parentBody => parentBody
  | _ => Option.none

mutual

/-- getFrameDepth (frame.cpp, lines 173-207): returns depth at once when
depth exceeds maxDepth or the selection has no body; otherwise recurses into
the body's orbit frame (position walks) and body frame (orientation walks)
at depth + 1, returning an orbit-frame depth beyond maxDepth early.  The
early return inside the C++ orbit-frame branch is written here as a single
test after the branch; when the branch is not taken the tested value is
depth, which is already known to be at most maxDepth. -/
def getFrameDepth (env : BodyEnv) (sel : Selection) (depth maxDepth : ℕ)
    (frameType : FrameType) : ℕ :=
  if _h : depth > maxDepth then depth
  else
    match sel.depthBody with
    | Option.none => depth
    | some b =>
      let orbitFrameDepth :=
        match env.orbitFrame b with
        | some f =>
            if frameType = FrameType.positionFrame then
              Frame.nestingDepthFrom env f (depth + 1) maxDepth frameType
            else depth
        | Option.none => depth
      if orbitFrameDepth > maxDepth then orbitFrameDepth
      else
        let bodyFrameDepth :=
          match env.bodyFrame b with
          | some f =>
              if frameType = FrameType.orientationFrame then
                Frame.nestingDepthFrom env f (depth + 1) maxDepth frameType
              else depth
          | Option.none => depth
        max orbitFrameDepth bodyFrameDepth
termination_by (maxDepth + 1 - depth, 0)
decreasing_by
  all_goals simp_wf
  all_goals first
    | exact Prod.Lex.left _ _ (by omega)
    | exact Prod.Lex.right _ (by omega)

/-- The per-variant protected nestingDepth(depth, maxDepth, frameType)
overloads of frame.cpp (lines 226-232, 257-263, 326-341, 430-446,
647-665), dispatched over the frame variants. -/
def Frame.nestingDepthFrom (env : BodyEnv) (f : Frame)
    (depth maxDepth : ℕ) (_frameType : FrameType) : ℕ :=
  match f with
  | .j2000Ecliptic center =>
      getFrameDepth env center depth maxDepth FrameType.positionFrame
  | .j2000Equator center =>
      getFrameDepth env center depth maxDepth FrameType.positionFrame
  | .bodyFixed center fixObject =>
      let n := getFrameDepth env center depth maxDepth FrameType.positionFrame
      if n > maxDepth then n
      else
        let m := getFrameDepth env fixObject depth maxDepth
          FrameType.orientationFrame
        max m n
  | .bodyMeanEquator center equatorObject _ _ =>
      let n := getFrameDepth env center depth maxDepth FrameType.positionFrame
      if n > maxDepth then n
      else
        let m := getFrameDepth env equatorObject depth maxDepth
          FrameType.orientationFrame
        max m n
  | .twoVector center primaryVector _ secondaryVector _ =>
      let n := getFrameDepth env center depth maxDepth FrameType.positionFrame
      if n > maxDepth then n
      else
        let m := FrameVec.nestingDepthFrom env primaryVector depth maxDepth
        let n := max m n
        if n > maxDepth then n
        else
          let m := FrameVec.nestingDepthFrom env secondaryVector depth maxDepth
          max m n
termination_by (maxDepth + 1 - depth, 2)
decreasing_by
  all_goals simp_wf
  all_goals first
    | exact Prod.Lex.left _ _ (by omega)
    | exact Prod.Lex.right _ (by omega)

/-- FrameVector::nestingDepth (frame.cpp, lines 749-781): relative vectors
walk both endpoint selections at the same depth; a constant vector walks its
attached frame at depth + 1 unless depth already exceeds maxDepth.  (For a
constant vector with no attached frame the C++ dereferences a null pointer;
the claims never reach that case, and it is modelled as returning depth.) -/
def FrameVec.nestingDepthFrom (env : BodyEnv) (fv : FrameVec)
    (depth maxDepth : ℕ) : ℕ :=
  match fv with
  | .relativePosition observer target =>
      let n := getFrameDepth env observer depth maxDepth
        FrameType.positionFrame
      if n > maxDepth then n
      else
        let m := getFrameDepth env target depth maxDepth
          FrameType.positionFrame
        max m n
  | .relativeVelocity observer target =>
      let n := getFrameDepth env observer depth maxDepth
        FrameType.positionFrame
      if n > maxDepth then n
      else
        let m := getFrameDepth env target depth maxDepth
          FrameType.positionFrame
        max m n
  | .constantVector _ frame =>
      if _h : depth > maxDepth then depth
      else
        match frame with
        | some f =>
            Frame.nestingDepthFrom env f (depth + 1) maxDepth
              FrameType.orientationFrame
        | Option.none => depth
termination_by (maxDepth + 1 - depth, 1)
decreasing_by
  all_goals simp_wf
  all_goals first
    | exact Prod.Lex.left _ _ (by omega)
    | exact Prod.Lex.right _ (by omega)

end

/-- ReferenceFrame::nestingDepth (frame.cpp, lines 166-170): the public
entry point starts the walk at depth 0. -/
def Frame.nestingDepth (env : BodyEnv) (f : Frame) (maxDepth : ℕ)
    (frameType : FrameType) : ℕ :=
  Frame.nestingDepthFrom env f 0 maxDepth frameType

/-- An acyclic body catalog of nesting depth 3: body 1's orbit frame is
centred on body 2, body 2's on body 3, body 3's on body 4, and body 4 has no
frames. -/
def chainBodyEnv : BodyEnv where
  orbitFrame := fun b =>
    if b = 1 then some (.j2000Ecliptic (.body 2))
    else if b = 2 then some (.j2000Ecliptic (.body 3))
    else if b = 3 then some (.j2000Ecliptic (.body 4))
    else Option.none
  bodyFrame := fun _ => Option.none

/-- A cyclic body catalog: every body's orbit frame is centred on body 0,
so the frame graph centred on body 0 refers to itself. -/
def cyclicBodyEnv : BodyEnv where
  orbitFrame := fun _ => some (.j2000Ecliptic (.body 0))
  bodyFrame := fun _ => Option.none

/-- C9: the nesting-depth walk terminates on every frame graph (the
embedding is total by construction, cyclic catalogs included); on the
acyclic depth-3 graph with maxDepth = 10 it returns 3, and on the cyclic
graph with maxDepth = 10 it returns 11 — the first depth value exceeding
maxDepth — which is strictly greater than 10. -/
theorem nestingDepth_examples :
    Frame.nestingDepth chainBodyEnv (.j2000Ecliptic (.body 1)) 10
      FrameType.positionFrame = 3 ∧
    Frame.nestingDepth cyclicBodyEnv (.j2000Ecliptic (.body 0)) 10
      FrameType.positionFrame = 11 ∧ 11 > 10 := by
  refine ⟨?_, ?_, by norm_num⟩
  · simp [Frame.nestingDepth, Frame.nestingDepthFrom, getFrameDepth,
      FrameVec.nestingDepthFrom, chainBodyEnv, Selection.depthBody]
  · simp [Frame.nestingDepth, Frame.nestingDepthFrom, getFrameDepth,
      FrameVec.nestingDepthFrom, cyclicBodyEnv, Selection.depthBody]

/-! ### TimelinePhase creation (src/celengine/timelinephase.cpp)

The Universe/FrameTree stores (universe.h, frametree.h, body.h are not among
the provided sources) are modelled from the spec: a frame-tree node is
identified by its owner (a body, or a star's solar system), trees are
created lazily by the getOrCreate accessors, and addChild appends a phase to
the owning node's child list.  Times are exact rationals (double comparisons
in the source are exact). -/

/-- Modelled from the spec: a frame-tree node, identified by its owner — a
body's tree or the tree of a star's solar system (frametree.h is not among
the provided sources). -/
inductive FrameTreeRef where
  | ofBody (b : ℕ) : FrameTreeRef
  | ofStar (s : ℕ) : FrameTreeRef
deriving DecidableEq, Repr

/-- A TimelinePhase (timelinephase.cpp, lines 25-44): the body, the time
interval, the orbit frame, the orbit function, the body frame, the rotation
model, and the owning frame-tree node.  Orbit functions and rotation models
are opaque ids here. -/
structure TimelinePhase where
  body : ℕ
  startTime : ℚ
  endTime : ℚ
  orbitFrame : Frame
  orbit : ℕ
  bodyFrame : Frame
  rotationModel : ℕ
  owner : FrameTreeRef

/-- Modelled from the spec: the Universe / frame-tree state visible to
CreateTimelinePhase — which body trees and star solar systems have been
created, and each tree node's registered child phases. -/
structure UniverseSt where
  bodyTreeCreated : List ℕ
  solarSystemCreated : List ℕ
  children : FrameTreeRef → List TimelinePhase

/-- Modelled from the spec: Body::getOrCreateFrameTree — returns the body's
frame-tree node, creating it lazily. -/
def getOrCreateFrameTree (u : UniverseSt) (b : ℕ) :
    FrameTreeRef × UniverseSt :=
  (FrameTreeRef.ofBody b,
   if b ∈ u.bodyTreeCreated then u
   else { u with bodyTreeCreated := b :: u.bodyTreeCreated })

/-- Modelled from the spec: Universe::getOrCreateSolarSystem followed by
SolarSystem::getFrameTree — returns the frame-tree node of the star's solar
system, creating the solar system lazily. -/
def getOrCreateSolarSystem (u : UniverseSt) (s : ℕ) :
    FrameTreeRef × UniverseSt :=
  (FrameTreeRef.ofStar s,
   if s ∈ u.solarSystemCreated then u
   else { u with solarSystemCreated := s :: u.solarSystemCreated })

/-- Modelled from the spec: FrameTree::addChild — register a phase as a
child of the given frame-tree node. -/
def addChild (u : UniverseSt) (tr : FrameTreeRef) (phase : TimelinePhase) :
    UniverseSt :=
  { u with children := fun r =>
      if r = tr then u.children r ++ [phase] else u.children r }

/-- TimelinePhase::CreateTimelinePhase (timelinephase.cpp, lines 48-94):
reject (null result, unchanged universe) when endTime <= startTime; resolve
the owning frame-tree node from the orbit frame's center — the center body's
tree, else the center star's solar-system tree, else reject; on success
build the phase, register it as a child of the owner node, and return it. -/
def CreateTimelinePhase (u : UniverseSt) (body : ℕ)
    (startTime endTime : ℚ) (orbitFrame : Frame) (orbit : ℕ)
    (bodyFrame : Frame) (rotationModel : ℕ) :
    Option TimelinePhase × UniverseSt :=
  if endTime ≤ startTime then (Option.none, u)
  else
    match (orbitFrame.center).bodyIdx with
    | some b =>
        let res := getOrCreateFrameTree u b
        let phase : TimelinePhase :=
          ⟨body, startTime, endTime, orbitFrame, orbit, bodyFrame,
           rotationModel, res.1⟩
        (some phase, addChild res.2 res.1 phase)
    | Option.none =>
        match (orbitFrame.center).starIdx with
        | some s =>
            let res := getOrCreateSolarSystem u s
            let phase : TimelinePhase :=
              ⟨body, startTime, endTime, orbitFrame, orbit, bodyFrame,
               rotationModel, res.1⟩
            (some phase, addChild res.2 res.1 phase)
        | Option.none => (Option.none, u)

/-- The lazily created body tree exists after getOrCreateFrameTree. -/
theorem getOrCreateFrameTree_mem (u : UniverseSt) (b : ℕ) :
    b ∈ ((getOrCreateFrameTree u b).2).bodyTreeCreated := by
  unfold getOrCreateFrameTree
  by_cases h : b ∈ u.bodyTreeCreated <;> simp [h]

/-- getOrCreateFrameTree does not change any child list. -/
theorem getOrCreateFrameTree_children (u : UniverseSt) (b : ℕ) :
    ((getOrCreateFrameTree u b).2).children = u.children := by
  unfold getOrCreateFrameTree
  by_cases h : b ∈ u.bodyTreeCreated <;> simp [h]

/-- The lazily created solar system exists after getOrCreateSolarSystem. -/
theorem getOrCreateSolarSystem_mem (u : UniverseSt) (s : ℕ) :
    s ∈ ((getOrCreateSolarSystem u s).2).solarSystemCreated := by
  unfold getOrCreateSolarSystem
  by_cases h : s ∈ u.solarSystemCreated <;> simp [h]

/-- getOrCreateSolarSystem does not change any child list. -/
theorem getOrCreateSolarSystem_children (u : UniverseSt) (s : ℕ) :
    ((getOrCreateSolarSystem u s).2).children = u.children := by
  unfold getOrCreateSolarSystem
  by_cases h : s ∈ u.solarSystemCreated <;> simp [h]

/-- A registered child list after addChild. -/
theorem addChild_children_self (u : UniverseSt) (tr : FrameTreeRef)
    (phase : TimelinePhase) :
    (addChild u tr phase).children tr = u.children tr ++ [phase] := by
  unfold addChild
  simp

/-- addChild does not change the created trees. -/
theorem addChild_bodyTreeCreated (u : UniverseSt) (tr : FrameTreeRef)
    (phase : TimelinePhase) :
    (addChild u tr phase).bodyTreeCreated = u.bodyTreeCreated ∧
    (addChild u tr phase).solarSystemCreated = u.solarSystemCreated :=
  ⟨rfl, rfl⟩

/-! ### Claim C4 -/

/-- C4: CreateTimelinePhase returns a null result (and leaves the universe
unchanged) whenever endTime <= startTime, and whenever the orbit frame's
center is neither a Body nor a Star; when it returns a phase, the phase's
owner is the center body's frame tree (or the center star's solar-system
tree), that tree exists in the resulting universe (created lazily), and the
phase has been registered as the last child of the owning node. -/
theorem createTimelinePhase_contract (u : UniverseSt) (body : ℕ)
    (startTime endTime : ℚ) (orbitFrame : Frame) (orbit : ℕ)
    (bodyFrame : Frame) (rotationModel : ℕ) :
    (endTime ≤ startTime →
      (CreateTimelinePhase u body startTime endTime orbitFrame orbit
        bodyFrame rotationModel) = (Option.none, u)) ∧
    ((orbitFrame.center).bodyIdx = Option.none →
      (orbitFrame.center).starIdx = Option.none →
      (CreateTimelinePhase u body startTime endTime orbitFrame orbit
        bodyFrame rotationModel) = (Option.none, u)) ∧
    (∀ phase,
      (CreateTimelinePhase u body startTime endTime orbitFrame orbit
        bodyFrame rotationModel).1 = some phase →
      (∀ b, (orbitFrame.center).bodyIdx = some b →
        phase.owner = FrameTreeRef.ofBody b ∧
        b ∈ ((CreateTimelinePhase u body startTime endTime orbitFrame orbit
          bodyFrame rotationModel).2).bodyTreeCreated) ∧
      (∀ s, (orbitFrame.center).bodyIdx = Option.none →
        (orbitFrame.center).starIdx = some s →
        phase.owner = FrameTreeRef.ofStar s ∧
        s ∈ ((CreateTimelinePhase u body startTime endTime orbitFrame orbit
          bodyFrame rotationModel).2).solarSystemCreated) ∧
      ((CreateTimelinePhase u body startTime endTime orbitFrame orbit
        bodyFrame rotationModel).2).children phase.owner =
        u.children phase.owner ++ [phase]) := by
  refine ⟨?_, ?_, ?_⟩
  · intro hts
    unfold CreateTimelinePhase
    rw [if_pos hts]
  · intro hb hs
    unfold CreateTimelinePhase
    rw [hb, hs]
    by_cases hts : endTime ≤ startTime <;> simp [hts]
  · intro phase hphase
    by_cases hts : endTime ≤ startTime
    · rw [CreateTimelinePhase] at hphase
      rw [if_pos hts] at hphase
      exact absurd hphase (by simp)
    · cases hcb : (orbitFrame.center).bodyIdx with
      | some b =>
          rw [CreateTimelinePhase, if_neg hts, hcb] at hphase
          simp only [Option.some.injEq] at hphase
          subst hphase
          refine ⟨?_, ?_, ?_⟩
          · intro b' hb'
            have hbb : b = b' := by injection hb'
            subst hbb
            refine ⟨rfl, ?_⟩
            rw [CreateTimelinePhase, if_neg hts, hcb]
            exact getOrCreateFrameTree_mem u b
          · intro s hb' _
            exact absurd hb' (by simp)
          · rw [CreateTimelinePhase, if_neg hts, hcb]
            simp only []
            rw [addChild_children_self, getOrCreateFrameTree_children]
      | none =>
          cases hcs : (orbitFrame.center).starIdx with
          | some s =>
              rw [CreateTimelinePhase, if_neg hts, hcb, hcs] at hphase
              simp only [Option.some.injEq] at hphase
              subst hphase
              refine ⟨?_, ?_, ?_⟩
              · intro b' hb'
                exact absurd hb' (by simp)
              · intro s' _ hs'
                have hss : s = s' := by injection hs'
                subst hss
                refine ⟨rfl, ?_⟩
                rw [CreateTimelinePhase, if_neg hts, hcb, hcs]
                exact getOrCreateSolarSystem_mem u s
              · rw [CreateTimelinePhase, if_neg hts, hcb, hcs]
                simp only []
                rw [addChild_children_self, getOrCreateSolarSystem_children]
          | none =>
              rw [CreateTimelinePhase, if_neg hts, hcb, hcs] at hphase
              exact absurd hphase (by simp)

/-- Witness for C4: the degenerate interval startTime = endTime = 5 yields a
null result, for a J2000 ecliptic orbit frame centred on body 0 in an empty
universe. -/
theorem createTimelinePhase_contract_witness :
    ((5 : ℚ) ≤ 5) ∧
    CreateTimelinePhase ⟨[], [], fun _ => []⟩ 0 5 5
      (.j2000Ecliptic (.body 0)) 0 (.j2000Ecliptic (.body 0)) 0 =
      (Option.none, ⟨[], [], fun _ => []⟩) :=
  ⟨le_refl 5,
   (createTimelinePhase_contract ⟨[], [], fun _ => []⟩ 0 5 5
     (.j2000Ecliptic (.body 0)) 0 (.j2000Ecliptic (.body 0)) 0).1
     (le_refl 5)⟩
